import Mathlib

/-!
Verification development for the RUSLE factor-derivation and composition
pipeline (`app/services/rusle_calculator.py`, `app/services/gee_service.py`,
`app/routers/process.py`, `00_scripts/rusle_utils.py`).

The Python code builds lazy Earth-Engine raster expressions; pixel values are
only produced later by the remote engine.  We mirror this split: `Expr` is a
computable AST of the raster operations the code composes, and `eval` is the
per-pixel denotational semantics over the reals (with `none` standing for a
masked pixel).  The adaptive scale selector is a pure arithmetic function and
is embedded directly over `ℚ`/`ℕ`.
-/

/-- Band and layer names appearing in the source (dataset band selections and
`rename` calls).  Using an inductive type instead of raw strings keeps the
embedding total and decidable. -/
inductive BName where
  | sand
  | clay
  | organicCarbon
  | siltName
  | lcType1
  | kFactorName
  | rFactorName
  | lFactorName
  | sFactorName
  | cFactorName
  | pFactorName
  | soilLossName
  | lulcName
  | ndviName
deriving DecidableEq

/-- DEM sources accepted by `gee_service.load_dem` / the router's `DEMSource`
enum. -/
inductive DemSource where
  | SRTM
  | MERIT
deriving DecidableEq

/-- Lazy raster expression AST.  Each constructor corresponds to one
`ee.Image` operation used by the calculator:

* `const q` — `ee.Image(q)` (all numeric literals in the source are decimal,
  hence exactly representable in `ℚ`);
* `pi` — the constant `math.pi` used in `_calculate_ls_factors`;
* `input b` — a dataset band (e.g. OpenLandMap `b0` selections, MODIS
  `LC_Type1`);
* `precipSum d1 d2` — `precipitation.filterDate(d1, d2).sum()` over the CHIRPS
  series (dates are modelled as day numbers, `filterDate` is half-open);
* `slopeOf src` — `ee.Terrain.slope(load_dem(src))`;
* `ndviOf d1 d2 aoi` — the NDVI of the median Landsat-8 composite over the
  window clipped to the AOI (no claim concerns its internals, so the composite
  pipeline is a single input);
* arithmetic, comparison, conditional, `unmask`, `clip` and `rename`
  operations as in the `ee` API.  `clip` records the AOI (an opaque geometry
  identifier) so that structural equality of expressions reflects equality of
  geometries. -/
inductive Expr where
  | const : ℚ → Expr
  | pi : Expr
  | input : BName → Expr
  | precipSum : ℕ → ℕ → Expr
  | slopeOf : DemSource → Expr
  | ndviOf : ℕ → ℕ → ℕ → Expr
  | add : Expr → Expr → Expr
  | subtract : Expr → Expr → Expr
  | multiply : Expr → Expr → Expr
  | divide : Expr → Expr → Expr
  | pow : Expr → Expr → Expr
  | exp : Expr → Expr
  | tan : Expr → Expr
  | gt : Expr → Expr → Expr
  | lte : Expr → Expr → Expr
  | andE : Expr → Expr → Expr
  | eq : Expr → Expr → Expr
  | cond : Expr → Expr → Expr → Expr
  | whereImg : Expr → Expr → Expr → Expr
  | unmask : Expr → ℚ → Expr
  | clip : Expr → ℕ → Expr
  | rename : Expr → BName → Expr
deriving DecidableEq

/-- Per-pixel environment supplied by the remote engine: values of the input
dataset bands at the pixel (`none` = masked), the precipitation series by day,
the terrain slope in degrees per DEM source, the composite NDVI, and AOI
membership of the pixel for each geometry identifier. -/
structure Env where
  bands : BName → Option ℝ
  precip : ℕ → Option ℝ
  slope : DemSource → Option ℝ
  ndvi : ℕ → ℕ → ℕ → Option ℝ
  aoiMem : ℕ → Bool

open Classical in
/-- Per-pixel semantics of a raster expression: `none` is a masked pixel.
Binary arithmetic propagates masks; division by zero masks; `pow` is real
exponentiation (`Real.rpow`); comparisons yield 0/1; `where` keeps the base
image where the test is masked or zero (as `ee.Image.where` does); `unmask`
fills masked pixels with the constant; `clip` masks pixels outside the AOI.
The sum of a filtered image collection is masked at pixels where no image in
the window has a value — in particular over an empty window. -/
noncomputable def eval (env : Env) : Expr → Option ℝ
  | .const q => some (q : ℝ)
  | .pi => some Real.pi
  | .input b => env.bands b
  | .precipSum d1 d2 =>
      let vs := (List.range' d1 (d2 - d1)).filterMap env.precip
      if vs.isEmpty then none else some vs.sum
  | .slopeOf src => env.slope src
  | .ndviOf d1 d2 a => env.ndvi d1 d2 a
  | .add x y =>
      match eval env x, eval env y with
      | some u, some v => some (u + v)
      | _, _ => none
  | .subtract x y =>
      match eval env x, eval env y with
      | some u, some v => some (u - v)
      | _, _ => none
  | .multiply x y =>
      match eval env x, eval env y with
      | some u, some v => some (u * v)
      | _, _ => none
  | .divide x y =>
      match eval env x, eval env y with
      | some u, some v => if v = 0 then none else some (u / v)
      | _, _ => none
  | .pow x y =>
      match eval env x, eval env y with
      | some u, some v => some (u ^ v)
      | _, _ => none
  | .exp x => (eval env x).map Real.exp
  | .tan x => (eval env x).map Real.tan
  | .gt x y =>
      match eval env x, eval env y with
      | some u, some v => some (if v < u then 1 else 0)
      | _, _ => none
  | .lte x y =>
      match eval env x, eval env y with
      | some u, some v => some (if u ≤ v then 1 else 0)
      | _, _ => none
  | .andE x y =>
      match eval env x, eval env y with
      | some u, some v => some (if u ≠ 0 ∧ v ≠ 0 then 1 else 0)
      | _, _ => none
  | .eq x y =>
      match eval env x, eval env y with
      | some u, some v => some (if u = v then 1 else 0)
      | _, _ => none
  | .cond c t e =>
      match eval env c with
      | some cv => if cv ≠ 0 then eval env t else eval env e
      | none => none
  | .whereImg base c v =>
      match eval env c with
      | some cv => if cv ≠ 0 then eval env v else eval env base
      | none => eval env base
  | .unmask x q => some ((eval env x).getD (q : ℝ))
  | .clip x a => if env.aoiMem a then eval env x else none
  | .rename x _ => eval env x

theorem eval_const (env : Env) (q : ℚ) : eval env (Expr.const q) = some (q : ℝ) := rfl

theorem eval_rename (env : Env) (x : Expr) (b : BName) :
    eval env (Expr.rename x b) = eval env x := rfl

theorem eval_clip_mem (env : Env) (x : Expr) (a : ℕ) (h : env.aoiMem a = true) :
    eval env (Expr.clip x a) = eval env x := by
  simp [eval, h]

theorem eval_clip_notMem (env : Env) (x : Expr) (a : ℕ) (h : env.aoiMem a = false) :
    eval env (Expr.clip x a) = none := by
  simp [eval, h]

theorem eval_unmask_some (env : Env) (x : Expr) (q : ℚ) (u : ℝ)
    (h : eval env x = some u) : eval env (Expr.unmask x q) = some u := by
  simp [eval, h]

theorem eval_unmask_none (env : Env) (x : Expr) (q : ℚ)
    (h : eval env x = none) : eval env (Expr.unmask x q) = some (q : ℝ) := by
  simp [eval, h]

theorem eval_add (env : Env) (x y : Expr) (u v : ℝ)
    (hx : eval env x = some u) (hy : eval env y = some v) :
    eval env (Expr.add x y) = some (u + v) := by
  simp [eval, hx, hy]

theorem eval_subtract (env : Env) (x y : Expr) (u v : ℝ)
    (hx : eval env x = some u) (hy : eval env y = some v) :
    eval env (Expr.subtract x y) = some (u - v) := by
  simp [eval, hx, hy]

theorem eval_multiply (env : Env) (x y : Expr) (u v : ℝ)
    (hx : eval env x = some u) (hy : eval env y = some v) :
    eval env (Expr.multiply x y) = some (u * v) := by
  simp [eval, hx, hy]

theorem eval_multiply_none_left (env : Env) (x y : Expr)
    (hx : eval env x = none) : eval env (Expr.multiply x y) = none := by
  simp [eval, hx]

theorem eval_multiply_none_right (env : Env) (x y : Expr)
    (hy : eval env y = none) : eval env (Expr.multiply x y) = none := by
  cases hx : eval env x <;> simp [eval, hx, hy]

theorem eval_divide (env : Env) (x y : Expr) (u v : ℝ)
    (hx : eval env x = some u) (hy : eval env y = some v) (hv : v ≠ 0) :
    eval env (Expr.divide x y) = some (u / v) := by
  simp [eval, hx, hy, hv]

theorem eval_pow (env : Env) (x y : Expr) (u v : ℝ)
    (hx : eval env x = some u) (hy : eval env y = some v) :
    eval env (Expr.pow x y) = some (u ^ v) := by
  simp [eval, hx, hy]

theorem eval_exp (env : Env) (x : Expr) (u : ℝ)
    (hx : eval env x = some u) : eval env (Expr.exp x) = some (Real.exp u) := by
  simp [eval, hx]

theorem eval_tan (env : Env) (x : Expr) (u : ℝ)
    (hx : eval env x = some u) : eval env (Expr.tan x) = some (Real.tan u) := by
  simp [eval, hx]

/-! ## Adaptive scale selector (`app/routers/process.py`) -/

/-- `MIN_EXPORT_SCALE_BY_LEVEL.get(admin_level, 90)`: minimum export scale by
administrative level, defaulting to 90 for levels outside the table. -/
def minExportScaleByLevel (adminLevel : ℤ) : ℕ :=
  if adminLevel = 0 then 250
  else if adminLevel = 1 then 90
  else if adminLevel = 2 then 30
  else 90

/-- `AREA_SCALE_THRESHOLDS`: the `(threshold_km2, scale)` tiers checked from
largest to smallest in `_get_minimum_scale`. -/
def AREA_SCALE_THRESHOLDS : List (ℚ × ℕ) :=
  [(500000, 500), (100000, 250), (10000, 90), (1000, 30), (0, 10)]

/-- The `for ... if area_km2 > threshold_km2: area_min = scale; break` loop of
`_get_minimum_scale`, with its initial value `area_min = 10`. -/
def areaMinScale (area : ℚ) : List (ℚ × ℕ) → ℕ
  | [] => 10
  | (t, s) :: rest => if area > t then s else areaMinScale area rest

/-- `_get_minimum_scale(area_km2, admin_level)`: the larger of the admin-level
minimum and the area-based minimum. -/
def getMinimumScale (areaKm2 : ℚ) (adminLevel : ℤ) : ℕ :=
  max (minExportScaleByLevel adminLevel) (areaMinScale areaKm2 AREA_SCALE_THRESHOLDS)

/-- `adjusted_scale = max(request.export_scale, min_scale)` in `process_rusle`. -/
def selectScale (requested : ℕ) (areaKm2 : ℚ) (adminLevel : ℤ) : ℕ :=
  max requested (getMinimumScale areaKm2 adminLevel)

/-- `scale_was_adjusted = adjusted_scale != request.export_scale` in
`process_rusle`. -/
def scaleAdjusted (requested : ℕ) (areaKm2 : ℚ) (adminLevel : ℤ) : Bool :=
  selectScale requested areaKm2 adminLevel ≠ requested

/-- Claim C2: for every requested scale, area and admin level, the selector
returns `max(requested, admin_bound, area_bound)` where the admin bound is 250
for level 0, 90 for level 1, 30 for level 2 and 90 for unknown levels, and the
area bound is the first matching threshold from largest to smallest (500 above
500000 km², 250 above 100000, 90 above 10000, 30 above 1000, else 10); a flag
records whether the effective scale differs from the requested one. -/
theorem areaMinScale_eq (area : ℚ) :
    areaMinScale area AREA_SCALE_THRESHOLDS =
      (if area > 500000 then 500
       else if area > 100000 then 250
       else if area > 10000 then 90
       else if area > 1000 then 30
       else 10) := by
  simp only [AREA_SCALE_THRESHOLDS, areaMinScale]
  split_ifs <;> rfl

theorem C2_scale_selector (requested : ℕ) (areaKm2 : ℚ) (adminLevel : ℤ) :
    selectScale requested areaKm2 adminLevel =
      max requested
        (max
          (if adminLevel = 0 then 250
           else if adminLevel = 1 then 90
           else if adminLevel = 2 then 30
           else 90)
          (if areaKm2 > 500000 then 500
           else if areaKm2 > 100000 then 250
           else if areaKm2 > 10000 then 90
           else if areaKm2 > 1000 then 30
           else 10)) ∧
    (scaleAdjusted requested areaKm2 adminLevel = true ↔
      selectScale requested areaKm2 adminLevel ≠ requested) := by
  refine ⟨?_, by simp [scaleAdjusted]⟩
  rw [selectScale, getMinimumScale, areaMinScale_eq, minExportScaleByLevel]

/-! ## Data source adapters (`app/services/gee_service.py`) -/

/-- `gee_service.load_soil_data(aoi)`: the four OpenLandMap `b0` band
selections clipped to the AOI, silt derived as `100 - clay - sand`, renamed
and clipped. -/
def loadSoilData (aoi : ℕ) : Expr × Expr × Expr × Expr :=
  let organicCarbon := Expr.clip (Expr.input BName.organicCarbon) aoi
  let clay := Expr.clip (Expr.input BName.clay) aoi
  let sand := Expr.clip (Expr.input BName.sand) aoi
  let silt :=
    Expr.clip
      (Expr.rename (((Expr.const 100).subtract clay).subtract sand) BName.siltName)
      aoi
  (organicCarbon, clay, sand, silt)

/-! ## Factor builders (`RUSLECalculator`) -/

/-- The `f_csand` sub-expression of `_calculate_k_factor`:
`0.2 + 0.3 * exp(-0.256 * (silt/100 - 1))`. -/
def f_csandExpr (silt : Expr) : Expr :=
  (Expr.const 0.2).add
    ((Expr.const 0.3).multiply
      (((Expr.const (-0.256)).multiply
        ((silt.divide (Expr.const 100)).subtract (Expr.const 1))).exp))

/-- The `f_cl_si` sub-expression: `(silt / (clay + silt))^0.3`. -/
def f_cl_siExpr (clay silt : Expr) : Expr :=
  (silt.divide (clay.add silt)).pow (Expr.const 0.3)

/-- The `f_orgc` sub-expression:
`1 - 0.25*orgc / (orgc + exp(3.72 - 2.95*orgc))`. -/
def f_orgcExpr (organicCarbon : Expr) : Expr :=
  (Expr.const 1).subtract
    (((Expr.const 0.25).multiply organicCarbon).divide
      (organicCarbon.add
        (((Expr.const 3.72).subtract
          ((Expr.const 2.95).multiply organicCarbon)).exp)))

/-- The `f_hisand` sub-expression, with `sand_fraction = 1 - sand/100`:
`1 - 0.7*sf / (sf + exp(-5.51 + 22.9*sf))`. -/
def f_hisandExpr (sand : Expr) : Expr :=
  let sand_fraction := (Expr.const 1).subtract (sand.divide (Expr.const 100))
  (Expr.const 1).subtract
    (((Expr.const 0.7).multiply sand_fraction).divide
      (sand_fraction.add
        (((Expr.const (-5.51)).add
          ((Expr.const 22.9).multiply sand_fraction)).exp)))

/-- `RUSLECalculator._calculate_k_factor(aoi)` (Williams 1995):
`K = f_csand * f_cl_si * f_orgc * f_hisand`, renamed, gap-filled with 0.04
and clipped to the AOI. -/
def kFactorExpr (aoi : ℕ) : Expr :=
  let soil := loadSoilData aoi
  Expr.clip
    (Expr.unmask
      (Expr.rename
        ((((f_csandExpr soil.2.2.2).multiply
          (f_cl_siExpr soil.2.1 soil.2.2.2)).multiply
          (f_orgcExpr soil.1)).multiply
          (f_hisandExpr soil.2.2.1))
        BName.kFactorName)
      0.04)
    aoi

/-- `RUSLECalculator._calculate_r_factor(aoi, date_from, date_to)`:
`R = 0.0483 * P_sum^1.610` where `P_sum` is the precipitation sum over the
window clipped to the AOI; the result is renamed and gap-filled with 0.
Note that in the source `unmask(0)` is the final operation (there is no outer
clip on the R factor itself). -/
def rFactorExpr (aoi dateFrom dateTo : ℕ) : Expr :=
  let pcpSum := Expr.clip (Expr.precipSum dateFrom dateTo) aoi
  Expr.unmask
    (Expr.rename ((pcpSum.pow (Expr.const 1.610)).multiply (Expr.const 0.0483))
      BName.rFactorName)
    0

/-- `slope_perc` in `_calculate_ls_factors`: the clipped slope in degrees
converted to percent via `slope_deg.divide(180).multiply(pi).tan()
.multiply(100)`. -/
def slopePercExpr (aoi : ℕ) (demSource : DemSource) : Expr :=
  let slopeDeg := Expr.clip (Expr.slopeOf demSource) aoi
  (((slopeDeg.divide (Expr.const 180)).multiply Expr.pi).tan).multiply
    (Expr.const 100)

/-- `m_exponent` in `_calculate_ls_factors`: the constant image 1 overwritten
by a `where` chain over the four slope-percent ranges. -/
def mExponentExpr (slopePerc : Expr) : Expr :=
  (((((Expr.const 1).whereImg
      ((slopePerc.gt (Expr.const (-1))).andE (slopePerc.lte (Expr.const 1)))
      (Expr.const 0.2)).whereImg
      ((slopePerc.gt (Expr.const 1)).andE (slopePerc.lte (Expr.const 3)))
      (Expr.const 0.3)).whereImg
      ((slopePerc.gt (Expr.const 3)).andE (slopePerc.lte (Expr.const 4.5)))
      (Expr.const 0.4)).whereImg
      ((slopePerc.gt (Expr.const 4.5)).andE (slopePerc.lte (Expr.const 100)))
      (Expr.const 0.5))

/-- `RUSLECalculator._calculate_ls_factors(aoi, dem_source, pixel_size)`:
`L = (pixel_size / 22.13)^m` gap-filled with 1, and
`S = (0.43 + 0.3·s + 0.043·s²)/6.613` gap-filled with 0.065, both renamed and
clipped to the AOI. -/
def lsFactorExprs (aoi : ℕ) (demSource : DemSource) (pixelSize : ℚ) : Expr × Expr :=
  let slopePerc := slopePercExpr aoi demSource
  let lFactor :=
    Expr.clip
      (Expr.unmask
        (Expr.rename
          (((Expr.const pixelSize).divide (Expr.const 22.13)).pow
            (mExponentExpr slopePerc))
          BName.lFactorName)
        1)
      aoi
  let sFactor :=
    Expr.clip
      (Expr.unmask
        (Expr.rename
          (((((slopePerc.pow (Expr.const 2)).multiply (Expr.const 0.043)).add
              (slopePerc.multiply (Expr.const 0.30))).add
              (Expr.const 0.43)).divide (Expr.const 6.613))
          BName.sFactorName)
        0.065)
      aoi
  (lFactor, sFactor)

/-- `RUSLECalculator._calculate_c_factor(aoi, date_from, date_to)` (De Jong
1994): `C = 0.431 - 0.805 * NDVI` of the median composite, renamed,
gap-filled with 0.15 and clipped to the AOI. -/
def cFactorExpr (aoi dateFrom dateTo : ℕ) : Expr :=
  let ndvi := Expr.rename (Expr.ndviOf dateFrom dateTo aoi) BName.ndviName
  Expr.clip
    (Expr.unmask
      (Expr.rename ((Expr.const 0.431).subtract (ndvi.multiply (Expr.const 0.805)))
        BName.cFactorName)
      0.15)
    aoi

/-- `P_FACTOR_VALUES`: the 17-class MODIS land-cover table (Chuenchum et al.
2019), in the insertion order of the Python dict. -/
def P_FACTOR_VALUES : List (ℕ × ℚ) :=
  [(1, 0.8), (2, 0.8), (3, 0.8), (4, 0.8), (5, 0.8),
   (6, 0.8), (7, 0.8), (8, 0.8), (9, 0.8), (10, 0.8),
   (11, 1.0), (12, 0.5), (13, 1.0), (14, 0.5),
   (15, 1.0), (16, 1.0), (17, 1.0)]

/-- The nested-conditional `ee` expression string
`"(b('lulc') == c1) ? v1 : ... : fallback"` built from the table, as an
expression tree over the `lulc` band. -/
def pTableExpr (lulc : Expr) (fallback : ℚ) : List (ℕ × ℚ) → Expr
  | [] => Expr.const fallback
  | (c, v) :: rest =>
      Expr.cond (lulc.eq (Expr.const (c : ℚ))) (Expr.const v)
        (pTableExpr lulc fallback rest)

/-- `RUSLECalculator._calculate_p_factor(aoi)`: the most recent MODIS
`LC_Type1` image clipped to the AOI, reclassified through the table with
fallback `1.0`, renamed, gap-filled with 1.0 and clipped. -/
def pFactorExprApp (aoi : ℕ) : Expr :=
  let modisLc := Expr.clip (Expr.input BName.lcType1) aoi
  let lulc := Expr.rename modisLc BName.lulcName
  Expr.clip
    (Expr.unmask (Expr.rename (pTableExpr lulc 1.0 P_FACTOR_VALUES) BName.pFactorName)
      1.0)
    aoi

/-- `rusle_utils.calculate_p_factor(modis_lc, aoi)`: the same reclassification
but with fallback `9999` and no `unmask` step. -/
def pFactorExprScripts (modisLc : Expr) (aoi : ℕ) : Expr :=
  let lulc := Expr.rename (modisLc.clip aoi) BName.lulcName
  Expr.clip (Expr.rename (pTableExpr lulc 9999 P_FACTOR_VALUES) BName.pFactorName) aoi

/-! ## Combination engine (`RUSLECalculator.calculate`) -/

/-- `pixel_area_ha = (inputs.pixel_size ** 2) / 10000`. -/
def pixelAreaHa (pixelSize : ℚ) : ℚ := pixelSize ^ 2 / 10000

/-- The product chain `r.multiply(k).multiply(l).multiply(s).multiply(c)
.multiply(p).multiply(pixel_area_ha)` from `RUSLECalculator.calculate`. -/
def rusleProduct (r k l s c p : Expr) (pixelSize : ℚ) : Expr :=
  (((((r.multiply k).multiply l).multiply s).multiply c).multiply p).multiply
    (Expr.const (pixelAreaHa pixelSize))

/-- Lines 135-149 of `rusle_calculator.py`: the soil-loss expression, renamed,
gap-filled with 0 and clipped to the AOI. -/
def combineSoilLoss (r k l s c p : Expr) (pixelSize : ℚ) (aoi : ℕ) : Expr :=
  Expr.clip
    (Expr.unmask (Expr.rename (rusleProduct r k l s c p pixelSize) BName.soilLossName) 0)
    aoi

/-- `RUSLEInput`: AOI geometry (opaque identifier), analysis window (as day
numbers), optional user-provided factor expressions, DEM source, export scale
and pixel size, with the source's defaults. -/
structure RUSLEInput where
  aoi : ℕ
  date_from : ℕ
  date_to : ℕ
  custom_k_factor : Option Expr := none
  custom_r_factor : Option Expr := none
  custom_ls_factor : Option Expr := none
  custom_c_factor : Option Expr := none
  custom_p_factor : Option Expr := none
  dem_source : DemSource := DemSource.SRTM
  export_scale : ℕ := 90
  pixel_size : ℚ := 30

/-- `RUSLEResult`: the soil-loss expression, the six factor expressions and
the window metadata.  The wall-clock `computation_time` is environment
dependent and not part of the expression model. -/
structure RUSLEResult where
  soil_loss : Expr
  r_factor : Expr
  k_factor : Expr
  l_factor : Expr
  s_factor : Expr
  c_factor : Expr
  p_factor : Expr
  date_from : ℕ
  date_to : ℕ

/-- `RUSLECalculator.calculate(inputs)`: each factor is the user-provided
expression when present (`custom or computed`), except that a provided
combined LS factor replaces L and sets S to the constant image 1; the factors
are combined into the soil-loss expression and each factor is re-clipped to
the AOI for the returned result. -/
def calculate (inputs : RUSLEInput) : RUSLEResult :=
  let aoi := inputs.aoi
  let kFactor := inputs.custom_k_factor.getD (kFactorExpr aoi)
  let rFactor := inputs.custom_r_factor.getD
    (rFactorExpr aoi inputs.date_from inputs.date_to)
  let ls := lsFactorExprs aoi inputs.dem_source inputs.pixel_size
  let lFactor := match inputs.custom_ls_factor with
    | some e => e
    | none => ls.1
  let sFactor := match inputs.custom_ls_factor with
    | some _ => Expr.const 1
    | none => ls.2
  let cFactor := inputs.custom_c_factor.getD
    (cFactorExpr aoi inputs.date_from inputs.date_to)
  let pFactor := inputs.custom_p_factor.getD (pFactorExprApp aoi)
  let soilLoss := combineSoilLoss rFactor kFactor lFactor sFactor cFactor pFactor
    inputs.pixel_size aoi
  { soil_loss := soilLoss
    r_factor := rFactor.clip aoi
    k_factor := kFactor.clip aoi
    l_factor := lFactor.clip aoi
    s_factor := sFactor.clip aoi
    c_factor := cFactor.clip aoi
    p_factor := pFactor.clip aoi
    date_from := inputs.date_from
    date_to := inputs.date_to }

/-! ## Claim theorems -/

theorem pixelAreaHa_cast (pixelSize : ℚ) :
    ((pixelAreaHa pixelSize : ℚ) : ℝ) = (pixelSize : ℝ) ^ 2 / 10000 := by
  unfold pixelAreaHa
  push_cast
  ring

/-- Claim C1: for every factor set and pixel size, the combination engine's
soil-loss expression evaluates pointwise to
`R * K * L * S * C * P * pixel_area_ha` with
`pixel_area_ha = pixel_size^2 / 10000` (equal to 0.09 for pixel size 30);
pixels where the factor product is masked are gap-filled with 0, and pixels
outside the AOI are clipped away. -/
theorem C1_combination_engine :
    (∀ (env : Env) (aoi : ℕ) (R K L S C P : Expr) (pixelSize : ℚ)
      (r k l s c p : ℝ),
      env.aoiMem aoi = true →
      eval env R = some r → eval env K = some k → eval env L = some l →
      eval env S = some s → eval env C = some c → eval env P = some p →
      eval env (combineSoilLoss R K L S C P pixelSize aoi) =
        some (r * k * l * s * c * p * ((pixelSize : ℝ) ^ 2 / 10000))) ∧
    pixelAreaHa 30 = 0.09 ∧
    (∀ (env : Env) (aoi : ℕ) (R K L S C P : Expr) (pixelSize : ℚ),
      env.aoiMem aoi = true →
      eval env (rusleProduct R K L S C P pixelSize) = none →
      eval env (combineSoilLoss R K L S C P pixelSize aoi) = some 0) ∧
    (∀ (env : Env) (aoi : ℕ) (R K L S C P : Expr) (pixelSize : ℚ),
      env.aoiMem aoi = false →
      eval env (combineSoilLoss R K L S C P pixelSize aoi) = none) := by
  refine ⟨?_, by norm_num [pixelAreaHa], ?_, ?_⟩
  · intro env aoi R K L S C P pixelSize r k l s c p hin hR hK hL hS hC hP
    have h6 : eval env (((((R.multiply K).multiply L).multiply S).multiply C).multiply P) =
        some (r * k * l * s * c * p) :=
      eval_multiply _ _ _ _ _
        (eval_multiply _ _ _ _ _
          (eval_multiply _ _ _ _ _
            (eval_multiply _ _ _ _ _ (eval_multiply _ _ _ _ _ hR hK) hL) hS) hC) hP
    have hc : eval env (Expr.const (pixelAreaHa pixelSize)) =
        some ((pixelSize : ℝ) ^ 2 / 10000) := by
      rw [← pixelAreaHa_cast]
      exact eval_const _ _
    have hprod : eval env (rusleProduct R K L S C P pixelSize) =
        some (r * k * l * s * c * p * ((pixelSize : ℝ) ^ 2 / 10000)) := by
      rw [rusleProduct]
      exact eval_multiply _ _ _ _ _ h6 hc
    rw [combineSoilLoss, eval_clip_mem _ _ _ hin]
    exact eval_unmask_some _ _ _ _ (by rw [eval_rename]; exact hprod)
  · intro env aoi R K L S C P pixelSize hin hnone
    rw [combineSoilLoss, eval_clip_mem _ _ _ hin]
    rw [eval_unmask_none]
    · norm_num
    · rw [eval_rename]
      exact hnone
  · intro env aoi R K L S C P pixelSize hout
    exact eval_clip_notMem _ _ _ hout

/-- Shared concrete environment for witnesses: every pixel is inside every
AOI, the land-cover band reads class 255, the precipitation series is the
constant 1, and the slope reads 0 degrees. -/
noncomputable def envA : Env :=
  { bands := fun _ => some 255
    precip := fun _ => some 1
    slope := fun _ => some 0
    ndvi := fun _ _ _ => some 0
    aoiMem := fun _ => true }

theorem C1_combination_engine_witness :
    eval envA
      (combineSoilLoss (Expr.const 1) (Expr.const 1) (Expr.const 1)
        (Expr.const 1) (Expr.const 1) (Expr.const 1) 30 0) =
      some (1 * 1 * 1 * 1 * 1 * 1 * ((30 : ℝ) ^ 2 / 10000)) :=
  C1_combination_engine.1 envA 0 _ _ _ _ _ _ 30 1 1 1 1 1 1 rfl
    (by simp [eval]) (by simp [eval]) (by simp [eval]) (by simp [eval])
    (by simp [eval]) (by simp [eval])

/-- Claim C6: for fixed admin level and requested scale the effective scale is
non-decreasing in the area, and the two sample evaluations from the spec hold:
`select_scale(10, 600000 km², level 0) = 500` and
`select_scale(90, 500 km², level 2) = 90` with no adjustment flag. -/
theorem C6_scale_monotone :
    (∀ (requested : ℕ) (adminLevel : ℤ) (a1 a2 : ℚ), a1 ≤ a2 →
      selectScale requested a1 adminLevel ≤ selectScale requested a2 adminLevel) ∧
    selectScale 10 600000 0 = 500 ∧
    selectScale 90 500 2 = 90 ∧
    scaleAdjusted 90 500 2 = false := by
  refine ⟨?_, by decide, by decide, by decide⟩
  intro requested adminLevel a1 a2 h
  unfold selectScale getMinimumScale
  refine max_le_max (le_refl requested) (max_le_max (le_refl _) ?_)
  rw [areaMinScale_eq, areaMinScale_eq]
  split_ifs <;> first | omega | linarith

theorem C6_scale_monotone_witness :
    selectScale 10 1000 1 ≤ selectScale 10 2000 1 :=
  C6_scale_monotone.1 10 1 1000 2000 (by norm_num)

/-- Claim C7: over the analysis window the R factor evaluates pointwise (in
the AOI, where the precipitation sum is defined) to
`0.0483 * P_sum^1.610`; and for an empty window (`start == end`) the
zero-length sum is masked everywhere and the final gap-fill turns it into
`R = 0` at every pixel without any error. -/
theorem C7_r_factor :
    (∀ (env : Env) (aoi dateFrom dateTo : ℕ) (vs : List ℝ),
      env.aoiMem aoi = true →
      (List.range' dateFrom (dateTo - dateFrom)).filterMap env.precip = vs →
      vs ≠ [] →
      eval env (rFactorExpr aoi dateFrom dateTo) =
        some ((0.0483 : ℝ) * vs.sum ^ (1.610 : ℝ))) ∧
    (∀ (env : Env) (aoi d : ℕ),
      eval env (rFactorExpr aoi d d) = some 0) := by
  constructor
  · intro env aoi dateFrom dateTo vs hin hvs hne
    have h1 : eval env (Expr.precipSum dateFrom dateTo) = some vs.sum := by
      rw [eval]
      simp only [hvs]
      cases vs with
      | nil => exact absurd rfl hne
      | cons a t => rfl
    have h2 : eval env (Expr.clip (Expr.precipSum dateFrom dateTo) aoi) = some vs.sum := by
      rw [eval_clip_mem _ _ _ hin]
      exact h1
    have h4 :
        eval env
          (((Expr.clip (Expr.precipSum dateFrom dateTo) aoi).pow
            (Expr.const 1.610)).multiply (Expr.const 0.0483)) =
          some (vs.sum ^ ((1.610 : ℚ) : ℝ) * ((0.0483 : ℚ) : ℝ)) :=
      eval_multiply _ _ _ _ _ (eval_pow _ _ _ _ _ h2 (eval_const _ _)) (eval_const _ _)
    rw [rFactorExpr, eval_unmask_some _ _ _ _ (by rw [eval_rename]; exact h4)]
    norm_num [mul_comm]
  · intro env aoi d
    have h1 : eval env (Expr.precipSum d d) = none := by
      rw [eval]
      simp
    have h2 : eval env (Expr.clip (Expr.precipSum d d) aoi) = none := by
      cases h : env.aoiMem aoi
      · exact eval_clip_notMem _ _ _ h
      · rw [eval_clip_mem _ _ _ h]
        exact h1
    have h3 :
        eval env
          (((Expr.clip (Expr.precipSum d d) aoi).pow
            (Expr.const 1.610)).multiply (Expr.const 0.0483)) = none :=
      eval_multiply_none_left _ _ _ (by simp [eval, h2])
    rw [rFactorExpr, eval_unmask_none _ _ _ (by rw [eval_rename]; exact h3)]
    norm_num

theorem C7_r_factor_witness :
    eval envA (rFactorExpr 0 0 1) = some ((0.0483 : ℝ) * [(1 : ℝ)].sum ^ (1.610 : ℝ)) ∧
    eval envA (rFactorExpr 0 5 5) = some 0 :=
  ⟨C7_r_factor.1 envA 0 0 1 [1] rfl rfl (by simp), C7_r_factor.2 envA 0 5⟩

/-- Ordered lookup through the `(class, value)` table with an explicit
fallback, over `ℚ` — the value the nested-conditional `ee` expression assigns
to a pixel whose `lulc` band reads `x`. -/
def pLookup (x fallback : ℚ) : List (ℕ × ℚ) → ℚ
  | [] => fallback
  | (c, v) :: rest => if x = (c : ℚ) then v else pLookup x fallback rest

open Classical in
/-- The same ordered lookup over the real pixel value. -/
noncomputable def pLookupR (x : ℝ) (fallback : ℚ) : List (ℕ × ℚ) → ℝ
  | [] => (fallback : ℝ)
  | (c, v) :: rest => if x = ((c : ℚ) : ℝ) then (v : ℝ) else pLookupR x fallback rest

theorem eval_pTableExpr (env : Env) (lulc : Expr) (x : ℝ) (fallback : ℚ)
    (h : eval env lulc = some x) (l : List (ℕ × ℚ)) :
    eval env (pTableExpr lulc fallback l) = some (pLookupR x fallback l) := by
  induction l with
  | nil => simp [pTableExpr, pLookupR, eval]
  | cons hd tl ih =>
      obtain ⟨c, v⟩ := hd
      simp only [pTableExpr, pLookupR, eval, h]
      rw [ih]
      split_ifs <;> simp_all

theorem pLookupR_ratCast (q fallback : ℚ) (l : List (ℕ × ℚ)) :
    pLookupR ((q : ℝ)) fallback l = ((pLookup q fallback l : ℚ) : ℝ) := by
  induction l with
  | nil => rfl
  | cons hd tl ih =>
      obtain ⟨c, v⟩ := hd
      simp only [pLookupR, pLookup]
      have hiff : ((q : ℝ) = (((c : ℚ)) : ℝ)) ↔ q = (c : ℚ) := Rat.cast_inj
      by_cases h : q = (c : ℚ)
      · rw [if_pos h, if_pos (hiff.mpr h)]
      · rw [if_neg h, if_neg (fun hh => h (hiff.mp hh)), ih]

/-- Claim C5: at a pixel whose land-cover class is `c`, the application's
P-factor expression evaluates to the ordered table lookup with fallback 1.0
and the scripts' version to the same lookup with fallback 9999; on the 17
tabulated classes the two lookups agree (classes 1-10 give 0.8, classes
11/13/15/16/17 give 1.0, classes 12 and 14 give 0.5), while on an unmatched
class such as 255 the two call sites return the differing defaults 1.0 and
9999. -/
theorem C5_p_factor :
    (∀ (env : Env) (aoi : ℕ) (c : ℚ),
      env.bands BName.lcType1 = some ((c : ℝ)) →
      env.aoiMem aoi = true →
      eval env (pFactorExprApp aoi) =
        some ((pLookup c 1.0 P_FACTOR_VALUES : ℚ) : ℝ) ∧
      eval env (pFactorExprScripts (Expr.input BName.lcType1) aoi) =
        some ((pLookup c 9999 P_FACTOR_VALUES : ℚ) : ℝ)) ∧
    (∀ cls ∈ P_FACTOR_VALUES.map Prod.fst,
      pLookup (cls : ℚ) 1.0 P_FACTOR_VALUES = pLookup (cls : ℚ) 9999 P_FACTOR_VALUES) ∧
    (∀ cls ∈ ([1, 2, 3, 4, 5, 6, 7, 8, 9, 10] : List ℕ),
      pLookup (cls : ℚ) 1.0 P_FACTOR_VALUES = 0.8) ∧
    (∀ cls ∈ ([11, 13, 15, 16, 17] : List ℕ),
      pLookup (cls : ℚ) 1.0 P_FACTOR_VALUES = 1.0) ∧
    (∀ cls ∈ ([12, 14] : List ℕ),
      pLookup (cls : ℚ) 1.0 P_FACTOR_VALUES = 0.5) ∧
    pLookup 255 1.0 P_FACTOR_VALUES = 1.0 ∧
    pLookup 255 9999 P_FACTOR_VALUES = 9999 := by
  refine ⟨?_, by norm_num [P_FACTOR_VALUES, pLookup], by norm_num [P_FACTOR_VALUES, pLookup],
    by norm_num [P_FACTOR_VALUES, pLookup], by norm_num [P_FACTOR_VALUES, pLookup],
    by norm_num [P_FACTOR_VALUES, pLookup], by norm_num [P_FACTOR_VALUES, pLookup]⟩
  intro env aoi c hband hin
  have hlulcApp :
      eval env (Expr.rename (Expr.clip (Expr.input BName.lcType1) aoi) BName.lulcName) =
        some ((c : ℝ)) := by
    rw [eval_rename, eval_clip_mem _ _ _ hin]
    exact hband
  have hlulcScripts :
      eval env (Expr.rename ((Expr.input BName.lcType1).clip aoi) BName.lulcName) =
        some ((c : ℝ)) := hlulcApp
  constructor
  · rw [pFactorExprApp, eval_clip_mem _ _ _ hin]
    rw [eval_unmask_some _ _ _ ((pLookup c 1.0 P_FACTOR_VALUES : ℚ) : ℝ)]
    rw [eval_rename, eval_pTableExpr _ _ _ _ hlulcApp, pLookupR_ratCast]
  · rw [pFactorExprScripts, eval_clip_mem _ _ _ hin]
    rw [eval_rename, eval_pTableExpr _ _ _ _ hlulcScripts, pLookupR_ratCast]

theorem C5_p_factor_witness :
    eval envA (pFactorExprApp 0) = some ((pLookup 255 1.0 P_FACTOR_VALUES : ℚ) : ℝ) ∧
    eval envA (pFactorExprScripts (Expr.input BName.lcType1) 0) =
      some ((pLookup 255 9999 P_FACTOR_VALUES : ℚ) : ℝ) :=
  C5_p_factor.1 envA 0 255 (by norm_num [envA]) rfl

theorem eval_soil_sand (env : Env) (aoi : ℕ) (sa : ℝ) (hin : env.aoiMem aoi = true)
    (hsand : env.bands BName.sand = some sa) :
    eval env (loadSoilData aoi).2.2.1 = some sa := by
  norm_num [loadSoilData, eval, hin, hsand]

theorem eval_soil_clay (env : Env) (aoi : ℕ) (cl : ℝ) (hin : env.aoiMem aoi = true)
    (hclay : env.bands BName.clay = some cl) :
    eval env (loadSoilData aoi).2.1 = some cl := by
  norm_num [loadSoilData, eval, hin, hclay]

theorem eval_soil_orgc (env : Env) (aoi : ℕ) (oc : ℝ) (hin : env.aoiMem aoi = true)
    (horgc : env.bands BName.organicCarbon = some oc) :
    eval env (loadSoilData aoi).1 = some oc := by
  norm_num [loadSoilData, eval, hin, horgc]

theorem eval_soil_silt (env : Env) (aoi : ℕ) (sa cl : ℝ) (hin : env.aoiMem aoi = true)
    (hsand : env.bands BName.sand = some sa) (hclay : env.bands BName.clay = some cl) :
    eval env (loadSoilData aoi).2.2.2 = some (100 - cl - sa) := by
  norm_num [loadSoilData, eval, hin, hclay, hsand]

theorem eval_soil_silt_none (env : Env) (aoi : ℕ) (hin : env.aoiMem aoi = true)
    (hsand : env.bands BName.sand = none) :
    eval env (loadSoilData aoi).2.2.2 = none := by
  cases hclay : env.bands BName.clay <;>
    norm_num [loadSoilData, eval, hin, hclay, hsand]

theorem eval_f_csand (env : Env) (silt : Expr) (si : ℝ)
    (hsilt : eval env silt = some si) :
    eval env (f_csandExpr silt) =
      some (0.2 + 0.3 * Real.exp (-0.256 * (si / 100 - 1))) := by
  norm_num [f_csandExpr, eval, hsilt]

theorem eval_f_csand_none (env : Env) (silt : Expr)
    (hsilt : eval env silt = none) :
    eval env (f_csandExpr silt) = none := by
  norm_num [f_csandExpr, eval, hsilt]

theorem eval_f_cl_si (env : Env) (clay silt : Expr) (cl si : ℝ)
    (hclay : eval env clay = some cl) (hsilt : eval env silt = some si)
    (h1 : cl + si ≠ 0) :
    eval env (f_cl_siExpr clay silt) = some ((si / (cl + si)) ^ (0.3 : ℝ)) := by
  norm_num [f_cl_siExpr, eval, hclay, hsilt, h1]

theorem eval_f_orgc (env : Env) (orgc : Expr) (oc : ℝ)
    (horgc : eval env orgc = some oc)
    (h2 : oc + Real.exp (3.72 - 2.95 * oc) ≠ 0) :
    eval env (f_orgcExpr orgc) =
      some (1 - 0.25 * oc / (oc + Real.exp (3.72 - 2.95 * oc))) := by
  norm_num at h2
  norm_num [f_orgcExpr, eval, horgc, h2]

theorem eval_f_hisand (env : Env) (sand : Expr) (sa : ℝ)
    (hsand : eval env sand = some sa)
    (h3 : (1 - sa / 100) + Real.exp (-5.51 + 22.9 * (1 - sa / 100)) ≠ 0) :
    eval env (f_hisandExpr sand) =
      some (1 - 0.7 * (1 - sa / 100) /
        ((1 - sa / 100) + Real.exp (-5.51 + 22.9 * (1 - sa / 100)))) := by
  norm_num at h3
  norm_num [f_hisandExpr, eval, hsand, h3]

/-- Claim C3: at a pixel in the AOI where the soil bands are defined, the K
factor evaluates to `f_csand * f_cl_si * f_orgc * f_hisand` with the Williams
(1995) sub-factor formulas, silt derived as `100 - sand - clay`; masked soil
pixels are gap-filled with 0.04 and pixels outside the AOI are clipped away.
The non-vanishing-denominator hypotheses reflect that the engine masks
division by zero. -/
theorem C3_k_factor :
    (∀ (env : Env) (aoi : ℕ) (sa cl oc si sf : ℝ),
      env.aoiMem aoi = true →
      env.bands BName.sand = some sa →
      env.bands BName.clay = some cl →
      env.bands BName.organicCarbon = some oc →
      si = 100 - cl - sa →
      sf = 1 - sa / 100 →
      cl + si ≠ 0 →
      oc + Real.exp (3.72 - 2.95 * oc) ≠ 0 →
      sf + Real.exp (-5.51 + 22.9 * sf) ≠ 0 →
      eval env (kFactorExpr aoi) =
        some ((0.2 + 0.3 * Real.exp (-0.256 * (si / 100 - 1))) *
          (si / (cl + si)) ^ (0.3 : ℝ) *
          (1 - 0.25 * oc / (oc + Real.exp (3.72 - 2.95 * oc))) *
          (1 - 0.7 * sf / (sf + Real.exp (-5.51 + 22.9 * sf))))) ∧
    (∀ (env : Env) (aoi : ℕ),
      env.aoiMem aoi = true →
      env.bands BName.sand = none →
      eval env (kFactorExpr aoi) = some 0.04) ∧
    (∀ (env : Env) (aoi : ℕ),
      env.aoiMem aoi = false →
      eval env (kFactorExpr aoi) = none) := by
  refine ⟨?_, ?_, ?_⟩
  · intro env aoi sa cl oc si sf hin hsand hclay hoc hsi hsf h1 h2 h3
    subst hsi
    subst hsf
    have hS := eval_soil_sand env aoi sa hin hsand
    have hC := eval_soil_clay env aoi cl hin hclay
    have hO := eval_soil_orgc env aoi oc hin hoc
    have hSi := eval_soil_silt env aoi sa cl hin hsand hclay
    have hcs := eval_f_csand env _ _ hSi
    have hcl := eval_f_cl_si env _ _ cl _ hC hSi h1
    have hor := eval_f_orgc env _ oc hO h2
    have hhi := eval_f_hisand env _ sa hS h3
    have hprod := eval_multiply _ _ _ _ _
      (eval_multiply _ _ _ _ _ (eval_multiply _ _ _ _ _ hcs hcl) hor) hhi
    simp only [kFactorExpr]
    rw [eval_clip_mem _ _ _ hin]
    exact eval_unmask_some _ _ _ _ (by rw [eval_rename]; exact hprod)
  · intro env aoi hin hsand
    have hSi := eval_soil_silt_none env aoi hin hsand
    have hcs := eval_f_csand_none env _ hSi
    have hprod := eval_multiply_none_left env _ (f_hisandExpr (loadSoilData aoi).2.2.1)
      (eval_multiply_none_left env _ (f_orgcExpr (loadSoilData aoi).1)
        (eval_multiply_none_left env _ (f_cl_siExpr (loadSoilData aoi).2.1 (loadSoilData aoi).2.2.2) hcs))
    simp only [kFactorExpr]
    rw [eval_clip_mem _ _ _ hin]
    rw [eval_unmask_none _ _ _ (by rw [eval_rename]; exact hprod)]
    norm_num
  · intro env aoi hout
    exact eval_clip_notMem _ _ _ hout

/-- Concrete soil environment for the K-factor witness, using the spec's test
vector sand = 30, clay = 30, organic carbon = 2 (silt derives to 40). -/
noncomputable def envSoil : Env :=
  { bands := fun b =>
      match b with
      | BName.sand => some 30
      | BName.clay => some 30
      | BName.organicCarbon => some 2
      | _ => none
    precip := fun _ => none
    slope := fun _ => none
    ndvi := fun _ _ _ => none
    aoiMem := fun _ => true }

theorem C3_k_factor_witness :
    eval envSoil (kFactorExpr 0) =
      some ((0.2 + 0.3 * Real.exp (-0.256 * ((100 - 30 - 30 : ℝ) / 100 - 1))) *
        ((100 - 30 - 30 : ℝ) / (30 + (100 - 30 - 30))) ^ (0.3 : ℝ) *
        (1 - 0.25 * 2 / (2 + Real.exp (3.72 - 2.95 * 2))) *
        (1 - 0.7 * (1 - 30 / 100) /
          ((1 - 30 / 100) + Real.exp (-5.51 + 22.9 * (1 - 30 / 100))))) :=
  C3_k_factor.1 envSoil 0 30 30 2 (100 - 30 - 30) (1 - 30 / 100) rfl rfl rfl rfl rfl rfl
    (by norm_num)
    (by positivity)
    (ne_of_gt (by nlinarith [Real.exp_pos (-5.51 + 22.9 * (1 - (30 : ℝ) / 100))]))

open Classical in
/-- The piecewise exponent `m` as a function of slope percent, in the
evaluation order of the `where` chain (the outermost `where` wins; the ranges
are disjoint so this matches the table order). -/
noncomputable def mOf (s : ℝ) : ℝ :=
  if 4.5 < s ∧ s ≤ 100 then 0.5
  else if 3 < s ∧ s ≤ 4.5 then 0.4
  else if 1 < s ∧ s ≤ 3 then 0.3
  else if -1 < s ∧ s ≤ 1 then 0.2
  else 1

theorem ite_one_zero_ne (c : Prop) [Decidable c] :
    ((if c then (1 : ℝ) else 0) ≠ 0) ↔ c := by
  split_ifs with h <;> simp [h]

theorem eval_rangeCond (env : Env) (sp : Expr) (s : ℝ) (a b : ℚ)
    (hsp : eval env sp = some s) :
    eval env ((sp.gt (Expr.const a)).andE (sp.lte (Expr.const b))) =
      some (if (a : ℝ) < s ∧ s ≤ (b : ℝ) then 1 else 0) := by
  simp only [eval, hsp]
  split_ifs <;> simp_all

theorem eval_whereImg_some (env : Env) (base c v : Expr) (cv : ℝ)
    (hc : eval env c = some cv) :
    eval env (Expr.whereImg base c v) =
      if cv ≠ 0 then eval env v else eval env base := by
  simp [eval, hc]

theorem eval_mExponent (env : Env) (sp : Expr) (s : ℝ)
    (hsp : eval env sp = some s) :
    eval env (mExponentExpr sp) = some (mOf s) := by
  have h1 := eval_rangeCond env sp s (-1) 1 hsp
  have h2 := eval_rangeCond env sp s 1 3 hsp
  have h3 := eval_rangeCond env sp s 3 4.5 hsp
  have h4 := eval_rangeCond env sp s 4.5 100 hsp
  rw [mExponentExpr]
  rw [eval_whereImg_some _ _ _ _ _ h4, eval_whereImg_some _ _ _ _ _ h3,
    eval_whereImg_some _ _ _ _ _ h2, eval_whereImg_some _ _ _ _ _ h1]
  simp only [ite_one_zero_ne, eval_const, mOf]
  norm_num
  split_ifs <;> norm_num

theorem eval_add_none_left (env : Env) (x y : Expr)
    (hx : eval env x = none) : eval env (Expr.add x y) = none := by
  simp [eval, hx]

theorem eval_pow_none_left (env : Env) (x y : Expr)
    (hx : eval env x = none) : eval env (Expr.pow x y) = none := by
  simp [eval, hx]

theorem eval_divide_none_left (env : Env) (x y : Expr)
    (hx : eval env x = none) : eval env (Expr.divide x y) = none := by
  simp [eval, hx]

theorem eval_slopePerc (env : Env) (aoi : ℕ) (demSource : DemSource) (d : ℝ)
    (hin : env.aoiMem aoi = true) (hd : env.slope demSource = some d) :
    eval env (slopePercExpr aoi demSource) =
      some (Real.tan (d / 180 * Real.pi) * 100) := by
  norm_num [slopePercExpr, eval, hin, hd]

theorem eval_slopePerc_none (env : Env) (aoi : ℕ) (demSource : DemSource)
    (hd : env.slope demSource = none) :
    eval env (slopePercExpr aoi demSource) = none := by
  cases h : env.aoiMem aoi <;> norm_num [slopePercExpr, eval, h, hd]

/-- Claim C4: at a pixel in the AOI with slope `d` degrees, with slope
percent `s = tan(d·π/180)·100`, the L factor evaluates to
`(pixel_size/22.13)^m` and the S factor to `(0.43 + 0.3·s + 0.043·s²)/6.613`,
where the exponent `m` is 0.2 on `(-1, 1]`, 0.3 on `(1, 3]`, 0.4 on
`(3, 4.5]`, 0.5 on `(4.5, 100]` and defaults to 1 outside all four ranges
(e.g. above 100 or at or below -1); at slope-masked pixels the S factor is
gap-filled with 0.065, and outside the AOI both factors are clipped away. -/
theorem C4_ls_factors :
    (∀ (env : Env) (aoi : ℕ) (demSource : DemSource) (pixelSize : ℚ) (d s : ℝ),
      env.aoiMem aoi = true →
      env.slope demSource = some d →
      s = Real.tan (d * Real.pi / 180) * 100 →
      eval env (lsFactorExprs aoi demSource pixelSize).1 =
        some (((pixelSize : ℝ) / 22.13) ^ mOf s) ∧
      eval env (lsFactorExprs aoi demSource pixelSize).2 =
        some ((0.43 + 0.3 * s + 0.043 * s ^ 2) / 6.613)) ∧
    (∀ s : ℝ,
      (-1 < s ∧ s ≤ 1 → mOf s = 0.2) ∧
      (1 < s ∧ s ≤ 3 → mOf s = 0.3) ∧
      (3 < s ∧ s ≤ 4.5 → mOf s = 0.4) ∧
      (4.5 < s ∧ s ≤ 100 → mOf s = 0.5) ∧
      (s ≤ -1 ∨ 100 < s → mOf s = 1)) ∧
    (∀ (env : Env) (aoi : ℕ) (demSource : DemSource) (pixelSize : ℚ),
      env.aoiMem aoi = true →
      env.slope demSource = none →
      eval env (lsFactorExprs aoi demSource pixelSize).2 = some 0.065) ∧
    (∀ (env : Env) (aoi : ℕ) (demSource : DemSource) (pixelSize : ℚ),
      env.aoiMem aoi = false →
      eval env (lsFactorExprs aoi demSource pixelSize).1 = none ∧
      eval env (lsFactorExprs aoi demSource pixelSize).2 = none) := by
  refine ⟨?_, ?_, ?_, ?_⟩
  · intro env aoi demSource pixelSize d s hin hd hs
    have hsp : eval env (slopePercExpr aoi demSource) = some s := by
      rw [eval_slopePerc env aoi demSource d hin hd, hs,
        show d / 180 * Real.pi = d * Real.pi / 180 by ring]
    constructor
    · have hm := eval_mExponent env _ s hsp
      have hdiv : eval env ((Expr.const pixelSize).divide (Expr.const 22.13)) =
          some ((pixelSize : ℝ) / ((22.13 : ℚ) : ℝ)) :=
        eval_divide _ _ _ _ _ (eval_const _ _) (eval_const _ _) (by norm_num)
      have hpow := eval_pow _ _ _ _ _ hdiv hm
      simp only [lsFactorExprs]
      rw [eval_clip_mem _ _ _ hin,
        eval_unmask_some _ _ _ _ (by rw [eval_rename]; exact hpow)]
      norm_num
    · have h2c : eval env ((slopePercExpr aoi demSource).pow (Expr.const 2)) =
          some (s ^ (2 : ℕ)) := by
        rw [eval_pow _ _ _ _ _ hsp (eval_const _ _),
          show ((2 : ℚ) : ℝ) = ((2 : ℕ) : ℝ) by norm_num, Real.rpow_natCast]
      have hs1 := eval_multiply _ _ _ _ _ h2c (eval_const env 0.043)
      have hs2 := eval_multiply _ _ _ _ _ hsp (eval_const env 0.30)
      have hs3 := eval_add _ _ _ _ _ hs1 hs2
      have hs4 := eval_add _ _ _ _ _ hs3 (eval_const env 0.43)
      have hs5 := eval_divide _ _ _ _ _ hs4 (eval_const env 6.613) (by norm_num)
      simp only [lsFactorExprs]
      rw [eval_clip_mem _ _ _ hin,
        eval_unmask_some _ _ _ _ (by rw [eval_rename]; exact hs5)]
      congr 1
      push_cast
      ring
  · intro s
    refine ⟨?_, ?_, ?_, ?_, ?_⟩ <;> intro h <;> simp only [mOf]
    · rw [if_neg (by rintro ⟨h1, h2⟩; linarith [h.1, h.2]),
        if_neg (by rintro ⟨h1, h2⟩; linarith [h.1, h.2]),
        if_neg (by rintro ⟨h1, h2⟩; linarith [h.1, h.2]), if_pos h]
    · rw [if_neg (by rintro ⟨h1, h2⟩; linarith [h.1, h.2]),
        if_neg (by rintro ⟨h1, h2⟩; linarith [h.1, h.2]), if_pos h]
    · rw [if_neg (by rintro ⟨h1, h2⟩; linarith [h.1, h.2]), if_pos h]
    · rw [if_pos h]
    · rcases h with h | h
      · rw [if_neg (by rintro ⟨h1, h2⟩; linarith),
          if_neg (by rintro ⟨h1, h2⟩; linarith),
          if_neg (by rintro ⟨h1, h2⟩; linarith),
          if_neg (by rintro ⟨h1, h2⟩; linarith)]
      · rw [if_neg (by rintro ⟨h1, h2⟩; linarith),
          if_neg (by rintro ⟨h1, h2⟩; linarith),
          if_neg (by rintro ⟨h1, h2⟩; linarith),
          if_neg (by rintro ⟨h1, h2⟩; linarith)]
  · intro env aoi demSource pixelSize hin hd
    have hspn := eval_slopePerc_none env aoi demSource hd
    have hnone : eval env
        (((((slopePercExpr aoi demSource).pow (Expr.const 2)).multiply
            (Expr.const 0.043)).add
            ((slopePercExpr aoi demSource).multiply (Expr.const 0.30))).add
            (Expr.const 0.43)) = none :=
      eval_add_none_left _ _ _
        (eval_add_none_left _ _ _
          (eval_multiply_none_left _ _ _ (eval_pow_none_left _ _ _ hspn)))
    have hdiv := eval_divide_none_left env _ (Expr.const 6.613) hnone
    simp only [lsFactorExprs]
    rw [eval_clip_mem _ _ _ hin,
      eval_unmask_none _ _ _ (by rw [eval_rename]; exact hdiv)]
    norm_num
  · intro env aoi demSource pixelSize hout
    exact ⟨eval_clip_notMem _ _ _ hout, eval_clip_notMem _ _ _ hout⟩

theorem C4_ls_factors_witness :
    eval envA (lsFactorExprs 0 DemSource.SRTM 30).1 =
      some ((((30 : ℚ) : ℝ) / 22.13) ^ mOf (Real.tan (0 * Real.pi / 180) * 100)) ∧
    eval envA (lsFactorExprs 0 DemSource.SRTM 30).2 =
      some ((0.43 + 0.3 * (Real.tan (0 * Real.pi / 180) * 100) +
        0.043 * (Real.tan (0 * Real.pi / 180) * 100) ^ 2) / 6.613) :=
  C4_ls_factors.1 envA 0 DemSource.SRTM 30 0 (Real.tan (0 * Real.pi / 180) * 100)
    rfl rfl rfl

/-- Claim C9: the combination engine is deterministic — for two invocations
whose inputs agree on AOI, temporal window, DEM source and pixel size (with
no user-provided factor overrides), the produced soil-loss expressions are
structurally identical, whatever the remaining input fields (e.g.
`export_scale`) are.  `calculate` is a pure function of its input in this
embedding, so it has no effect beyond producing the returned result. -/
theorem C9_determinism (i j : RUSLEInput)
    (haoi : i.aoi = j.aoi) (hfrom : i.date_from = j.date_from)
    (hto : i.date_to = j.date_to) (hdem : i.dem_source = j.dem_source)
    (hpx : i.pixel_size = j.pixel_size)
    (hik : i.custom_k_factor = none) (hjk : j.custom_k_factor = none)
    (hir : i.custom_r_factor = none) (hjr : j.custom_r_factor = none)
    (hil : i.custom_ls_factor = none) (hjl : j.custom_ls_factor = none)
    (hic : i.custom_c_factor = none) (hjc : j.custom_c_factor = none)
    (hip : i.custom_p_factor = none) (hjp : j.custom_p_factor = none) :
    (calculate i).soil_loss = (calculate j).soil_loss := by
  simp only [calculate, hik, hjk, hir, hjr, hil, hjl, hic, hjc, hip, hjp,
    haoi, hfrom, hto, hdem, hpx, Option.getD_none]

theorem C9_determinism_witness :
    (calculate { aoi := 0, date_from := 0, date_to := 1, export_scale := 90 }).soil_loss =
      (calculate { aoi := 0, date_from := 0, date_to := 1, export_scale := 250 }).soil_loss :=
  C9_determinism _ _ rfl rfl rfl rfl rfl rfl rfl rfl rfl rfl rfl rfl rfl rfl rfl

/-- Claim C10: when a combined LS factor is provided, `calculate` uses it as
the L factor and replaces the S factor by the constant image 1 (the returned
`s_factor` being that constant clipped to the AOI), so the soil loss
evaluates pointwise to `R * K * custom_ls * 1 * C * P * pixel_area_ha`. -/
theorem C10_custom_ls (i : RUSLEInput) (ls : Expr)
    (h : i.custom_ls_factor = some ls)
    (env : Env) (hin : env.aoiMem i.aoi = true) (r k c p lv : ℝ)
    (hr : eval env (calculate i).r_factor = some r)
    (hk : eval env (calculate i).k_factor = some k)
    (hc : eval env (calculate i).c_factor = some c)
    (hp : eval env (calculate i).p_factor = some p)
    (hl : eval env ls = some lv) :
    eval env (calculate i).soil_loss =
      some (r * k * lv * 1 * c * p * ((i.pixel_size : ℝ) ^ 2 / 10000)) ∧
    (calculate i).s_factor = Expr.clip (Expr.const 1) i.aoi := by
  have hsfac : (calculate i).s_factor = Expr.clip (Expr.const 1) i.aoi := by
    simp only [calculate, h]
  have hrfac : (calculate i).r_factor =
      (i.custom_r_factor.getD (rFactorExpr i.aoi i.date_from i.date_to)).clip i.aoi := by
    simp only [calculate, h]
  have hkfac : (calculate i).k_factor =
      (i.custom_k_factor.getD (kFactorExpr i.aoi)).clip i.aoi := by
    simp only [calculate, h]
  have hcfac : (calculate i).c_factor =
      (i.custom_c_factor.getD (cFactorExpr i.aoi i.date_from i.date_to)).clip i.aoi := by
    simp only [calculate, h]
  have hpfac : (calculate i).p_factor =
      (i.custom_p_factor.getD (pFactorExprApp i.aoi)).clip i.aoi := by
    simp only [calculate, h]
  have hr' : eval env (i.custom_r_factor.getD (rFactorExpr i.aoi i.date_from i.date_to)) =
      some r := by
    rw [hrfac, eval_clip_mem _ _ _ hin] at hr
    exact hr
  have hk' : eval env (i.custom_k_factor.getD (kFactorExpr i.aoi)) = some k := by
    rw [hkfac, eval_clip_mem _ _ _ hin] at hk
    exact hk
  have hc' : eval env (i.custom_c_factor.getD (cFactorExpr i.aoi i.date_from i.date_to)) =
      some c := by
    rw [hcfac, eval_clip_mem _ _ _ hin] at hc
    exact hc
  have hp' : eval env (i.custom_p_factor.getD (pFactorExprApp i.aoi)) = some p := by
    rw [hpfac, eval_clip_mem _ _ _ hin] at hp
    exact hp
  have hone : eval env (Expr.const 1) = some 1 := by norm_num [eval]
  have hA : eval env (Expr.const (pixelAreaHa i.pixel_size)) =
      some ((i.pixel_size : ℝ) ^ 2 / 10000) := by
    rw [← pixelAreaHa_cast]
    exact eval_const _ _
  have hsl : (calculate i).soil_loss =
      combineSoilLoss (i.custom_r_factor.getD (rFactorExpr i.aoi i.date_from i.date_to))
        (i.custom_k_factor.getD (kFactorExpr i.aoi)) ls (Expr.const 1)
        (i.custom_c_factor.getD (cFactorExpr i.aoi i.date_from i.date_to))
        (i.custom_p_factor.getD (pFactorExprApp i.aoi)) i.pixel_size i.aoi := by
    simp only [calculate, h]
  refine ⟨?_, hsfac⟩
  rw [hsl, combineSoilLoss, eval_clip_mem _ _ _ hin]
  refine eval_unmask_some _ _ _ _ ?_
  rw [eval_rename, rusleProduct]
  exact eval_multiply _ _ _ _ _
    (eval_multiply _ _ _ _ _
      (eval_multiply _ _ _ _ _
        (eval_multiply _ _ _ _ _
          (eval_multiply _ _ _ _ _ (eval_multiply _ _ _ _ _ hr' hk') hl) hone) hc')
      hp') hA

/-- Concrete input for the C10 witness: all custom factors provided, the
combined LS factor among them. -/
def inputLS : RUSLEInput :=
  { aoi := 0
    date_from := 0
    date_to := 1
    custom_k_factor := some (Expr.const 2)
    custom_r_factor := some (Expr.const 2)
    custom_ls_factor := some (Expr.const 2)
    custom_c_factor := some (Expr.const 2)
    custom_p_factor := some (Expr.const 2) }

theorem C10_custom_ls_witness :
    eval envA (calculate inputLS).soil_loss =
      some (2 * 2 * 2 * 1 * 2 * 2 * (((30 : ℚ) : ℝ) ^ 2 / 10000)) ∧
    (calculate inputLS).s_factor = Expr.clip (Expr.const 1) 0 :=
  C10_custom_ls _ (Expr.const 2) rfl envA rfl 2 2 2 2 2
    (by norm_num [calculate, eval, envA, inputLS]) (by norm_num [calculate, eval, envA, inputLS])
    (by norm_num [calculate, eval, envA, inputLS]) (by norm_num [calculate, eval, envA, inputLS])
    (by norm_num [eval])

/-! ## Statistics reducer (`RUSLECalculator.get_statistics`) -/

/-- Failure modes of the remote raster engine relevant to reductions. -/
inductive EngineError where
  | computationLimit
  | authFailure
deriving DecidableEq

/-- A statistics report: mean/min/max/standard deviation of a layer over the
AOI at one scale. -/
structure StatsReport where
  mean : ℝ
  minV : ℝ
  maxV : ℝ
  stdDev : ℝ

/-- Modelled from the spec: the Remote Raster Engine's
`reduceRegion(reducer, geometry, scale, maxPixels)` collaborator (spec set at
6), which is not part of this repository's source; per the spec it fails with
a computation-limit error when the pixel count of the geometry at the given
scale would exceed `maxPixels`, and otherwise returns the reduced statistics.
`pixelCount` abstracts the pixel count of the fixed AOI as a function of the
scale, and `stats` the reduction result the engine would produce. -/
def reduceRegion (pixelCount : ℕ → ℕ) (stats : StatsReport) (scale maxPixels : ℕ) :
    Except EngineError StatsReport :=
  if pixelCount scale > maxPixels then Except.error EngineError.computationLimit
  else Except.ok stats

/-- `RUSLECalculator.get_statistics(image, aoi, scale)`: a single
`reduceRegion` call at the requested scale with `maxPixels = 1e9`; the result
(success or failure) is returned as is — there is no retry at any other
scale. -/
def getStatistics (pixelCount : ℕ → ℕ) (stats : StatsReport) (scale : ℕ) :
    Except EngineError StatsReport :=
  reduceRegion pixelCount stats scale (10 ^ 9)

/-- Claim C8: when the AOI/scale combination exceeds the pixel budget of 1e9,
the statistics reducer fails with the computation-limit error and never
returns (truncated) statistics; and unconditionally its result is exactly the
result of the single remote reduction at the requested scale, so any failure
propagates unchanged to the caller with no retry at a different scale inside
the core. -/
theorem C8_statistics_limit (pixelCount : ℕ → ℕ) (stats : StatsReport) (scale : ℕ) :
    (pixelCount scale > 10 ^ 9 →
      getStatistics pixelCount stats scale = Except.error EngineError.computationLimit ∧
      ∀ s : StatsReport, getStatistics pixelCount stats scale ≠ Except.ok s) ∧
    getStatistics pixelCount stats scale = reduceRegion pixelCount stats scale (10 ^ 9) ∧
    (∀ e : EngineError, reduceRegion pixelCount stats scale (10 ^ 9) = Except.error e →
      getStatistics pixelCount stats scale = Except.error e) := by
  refine ⟨?_, rfl, fun e he => he⟩
  intro hgt
  have herr : getStatistics pixelCount stats scale =
      Except.error EngineError.computationLimit := by
    have hgt' : 1000000000 < pixelCount scale := by omega
    simp [getStatistics, reduceRegion, hgt']
  exact ⟨herr, fun s hs => by rw [herr] at hs; exact Except.noConfusion hs⟩

theorem C8_statistics_limit_witness :
    getStatistics (fun _ => 10 ^ 9 + 1) ⟨0, 0, 0, 0⟩ 90 =
      Except.error EngineError.computationLimit :=
  ((C8_statistics_limit (fun _ => 10 ^ 9 + 1) ⟨0, 0, 0, 0⟩ 90).1 (by norm_num)).1
